import Mathlib

/-!
Shallow embedding of the geometric registration core of the Butterfly Registrator
(butterfly_registrator.py and aux_buttons.py), together with theorems settling the
frozen claims about its specification.

Conventions:
- Python floats are modelled by exact rationals.
- Python int() applied to the nonnegative quotients and products occurring in the
  resize arithmetic truncates toward zero, which on nonnegative values is the floor;
  it is modelled by Int.floor.
- Pixel buffers (numpy arrays) are modelled as a list of rows plus an explicit
  column count, so that a zero-row buffer still carries its width, as a numpy
  shape does.
-/

/-! Resize and pad arithmetic; butterfly_registrator.py, Registrator.load_toregister
lines 1059-1083 and Registrator.read_resize_pad_register lines 1797-1822. -/

/-- Aspect ratio width/height as computed at lines 1059-1060 (W/H as a float). -/
def image_aspect (w h : ℕ) : ℚ := (w : ℚ) / (h : ℚ)

/-- Resize dimensions (width, height) computed by Registrator.load_toregister,
lines 1062-1067: if the moving (toregister) image is wider in aspect than the
reference, fit the width and set the height to int(width / aspect); otherwise fit
the height and set the width to int(height * aspect). -/
def load_toregister_resize_dims (mov_w mov_h ref_w ref_h : ℕ) : ℤ × ℤ :=
  let aspect_reference := image_aspect ref_w ref_h
  let aspect_toregister := image_aspect mov_w mov_h
  if aspect_toregister > aspect_reference then
    ((ref_w : ℤ), ⌊(ref_w : ℚ) / aspect_toregister⌋)
  else
    (⌊(ref_h : ℚ) * aspect_toregister⌋, (ref_h : ℤ))

/-- Normalization recipe: resize dimensions and pad amounts, as computed at
lines 1062-1076 (add_rows = reference_height - resize_height,
add_cols = reference_width - resize_width). -/
structure Recipe where
  resize_width : ℤ
  resize_height : ℤ
  add_rows : ℤ
  add_cols : ℤ
deriving Repr, DecidableEq

/-- Recipe produced by the single-pair workflow (Registrator.load_toregister,
lines 1062-1076). -/
def load_toregister_recipe (mov_w mov_h ref_w ref_h : ℕ) : Recipe :=
  let d := load_toregister_resize_dims mov_w mov_h ref_w ref_h
  ⟨d.1, d.2, (ref_h : ℤ) - d.2, (ref_w : ℤ) - d.1⟩

/-- Per-file arithmetic of Registrator.read_resize_pad_register, lines 1790-1822:
the dimension gate at lines 1794-1795 returns False (modelled none) when the batch
file's raw height or width differs from the original moving image's; otherwise the
resize and pad quantities are recomputed from the batch file's dimensions with the
same formulas as load_toregister. -/
def read_resize_pad_register_recipe (orig_w orig_h ref_w ref_h file_w file_h : ℕ) :
    Option Recipe :=
  if file_h ≠ orig_h ∨ file_w ≠ orig_w then none
  else
    let aspect_reference := image_aspect ref_w ref_h
    let aspect_toregister := image_aspect file_w file_h
    let d : ℤ × ℤ :=
      if aspect_toregister > aspect_reference then
        ((ref_w : ℤ), ⌊(ref_w : ℚ) / aspect_toregister⌋)
      else
        (⌊(ref_h : ℚ) * aspect_toregister⌋, (ref_h : ℤ))
    some ⟨d.1, d.2, (ref_h : ℤ) - d.2, (ref_w : ℤ) - d.1⟩

/-- Modelled from the spec: the spec states the normalization rounds, i.e.
resizedHeight = round(resizedWidth / movingAspect) and
resizedWidth = round(resizedHeight * movingAspect); this definition follows the
spec's words and is compared against load_toregister_resize_dims, which follows
the source (Python int(), i.e. truncation). -/
def resize_dims_spec (mov_w mov_h ref_w ref_h : ℕ) : ℤ × ℤ :=
  let aspect_reference := image_aspect ref_w ref_h
  let aspect_toregister := image_aspect mov_w mov_h
  if aspect_toregister > aspect_reference then
    ((ref_w : ℤ), round ((ref_w : ℚ) / aspect_toregister))
  else
    (round ((ref_h : ℚ) * aspect_toregister), (ref_h : ℤ))

/-- Pixel buffer: list of rows plus the column count of the underlying array. -/
structure CvImage where
  data : List (List ℚ)
  width : ℕ
deriving Repr, DecidableEq

/-- Well-formedness: every row has the buffer's width. -/
def CvImage.wf (img : CvImage) : Prop := ∀ row ∈ img.data, row.length = img.width

/-- Model of np.pad(image, ((0, add_rows), (0, add_cols)), 'constant') at
lines 1078-1080: append add_cols zeros at the right of every row and add_rows
all-zero rows at the bottom. -/
def np_pad (img : CvImage) (add_rows add_cols : ℕ) : CvImage :=
  ⟨img.data.map (fun row => row ++ List.replicate add_cols 0) ++
     List.replicate add_rows (List.replicate (img.width + add_cols) 0),
   img.width + add_cols⟩

/-! Helper lemmas about list indexing with getD. -/

theorem list_getD_ge_length {α : Type} (l : List α) (n : ℕ) (d : α)
    (h : l.length ≤ n) : l.getD n d = d := by
  induction l generalizing n with
  | nil => cases n <;> rfl
  | cons a t ih =>
    cases n with
    | zero => simp at h
    | succ m =>
      simp only [List.length_cons, Nat.succ_le_succ_iff] at h
      simpa using ih m h

theorem list_getD_append_left {α : Type} (l r : List α) (n : ℕ) (d : α)
    (h : n < l.length) : (l ++ r).getD n d = l.getD n d := by
  induction l generalizing n with
  | nil => simp at h
  | cons a t ih =>
    cases n with
    | zero => rfl
    | succ m =>
      simp only [List.length_cons, Nat.succ_lt_succ_iff] at h
      simpa using ih m h

theorem list_getD_append_right {α : Type} (l r : List α) (n : ℕ) (d : α)
    (h : l.length ≤ n) : (l ++ r).getD n d = r.getD (n - l.length) d := by
  induction l generalizing n with
  | nil => simp
  | cons a t ih =>
    cases n with
    | zero => simp at h
    | succ m =>
      simp only [List.length_cons, Nat.succ_le_succ_iff] at h
      simpa [Nat.succ_sub_succ] using ih m h

theorem list_getD_map_lt {α β : Type} (f : α → β) (l : List α) (n : ℕ) (d : β)
    (d' : α) (h : n < l.length) : (l.map f).getD n d = f (l.getD n d') := by
  induction l generalizing n with
  | nil => simp at h
  | cons a t ih =>
    cases n with
    | zero => rfl
    | succ m =>
      simp only [List.length_cons, Nat.succ_lt_succ_iff] at h
      simpa using ih m h

theorem list_getD_replicate {α : Type} (m n : ℕ) (a d : α) :
    (List.replicate m a).getD n d = if n < m then a else d := by
  induction m generalizing n with
  | zero => simp [list_getD_ge_length]
  | succ k ih =>
    cases n with
    | zero => simp [List.replicate]
    | succ j => simpa [List.replicate, Nat.succ_lt_succ_iff] using ih j

theorem list_getD_mem {α : Type} (l : List α) (n : ℕ) (d : α)
    (h : n < l.length) : l.getD n d ∈ l := by
  induction l generalizing n with
  | nil => simp at h
  | cons a t ih =>
    cases n with
    | zero => simp
    | succ m =>
      simp only [List.length_cons, Nat.succ_lt_succ_iff] at h
      simpa using Or.inr (ih m h)

/-! Closed form of the resize arithmetic over natural-number division. -/

theorem aspect_lt_iff (a b c d : ℕ) (hb : 0 < b) (hd : 0 < d) :
    image_aspect a b < image_aspect c d ↔ a * d < c * b := by
  unfold image_aspect
  rw [div_lt_div_iff (by exact_mod_cast hb) (by exact_mod_cast hd)]
  exact_mod_cast Iff.rfl

theorem floor_nat_div (a b : ℕ) :
    ⌊(a : ℚ) / (b : ℚ)⌋ = ((a / b : ℕ) : ℤ) := by
  have h1 : ((a : ℤ) : ℚ) = (a : ℚ) := by push_cast; ring
  have h2 : (((a : ℕ) / (b : ℕ) : ℕ) : ℤ) = (a : ℤ) / (b : ℤ) := Int.ofNat_div a b
  rw [← h1, Rat.floor_intCast_div_natCast, h2]

theorem resize_dims_closed (mov_w mov_h ref_w ref_h : ℕ)
    (hmw : 0 < mov_w) (hmh : 0 < mov_h) (hrh : 0 < ref_h) :
    load_toregister_resize_dims mov_w mov_h ref_w ref_h =
      if ref_w * mov_h < mov_w * ref_h then
        ((ref_w : ℤ), ((ref_w * mov_h / mov_w : ℕ) : ℤ))
      else
        (((ref_h * mov_w / mov_h : ℕ) : ℤ), (ref_h : ℤ)) := by
  have hcond : (image_aspect ref_w ref_h < image_aspect mov_w mov_h) ↔
      (ref_w * mov_h < mov_w * ref_h) :=
    aspect_lt_iff ref_w ref_h mov_w mov_h hrh hmh
  simp only [load_toregister_resize_dims, gt_iff_lt, hcond]
  by_cases h : ref_w * mov_h < mov_w * ref_h
  · rw [if_pos h, if_pos h]
    have hdiv : (ref_w : ℚ) / image_aspect mov_w mov_h =
        ((ref_w * mov_h : ℕ) : ℚ) / ((mov_w : ℕ) : ℚ) := by
      unfold image_aspect
      rw [div_div_eq_mul_div]
      push_cast
      ring
    rw [hdiv, floor_nat_div]
  · rw [if_neg h, if_neg h]
    have hmh0 : ((mov_h : ℕ) : ℚ) ≠ 0 := by exact_mod_cast Nat.pos_iff_ne_zero.mp hmh
    have hmul : (ref_h : ℚ) * image_aspect mov_w mov_h =
        ((ref_h * mov_w : ℕ) : ℚ) / ((mov_h : ℕ) : ℚ) := by
      unfold image_aspect
      push_cast
      field_simp
    rw [hmul, floor_nat_div]

theorem resize_dims_bounds (mov_w mov_h ref_w ref_h : ℕ)
    (hmw : 0 < mov_w) (hmh : 0 < mov_h) (hrh : 0 < ref_h) :
    0 ≤ (load_toregister_resize_dims mov_w mov_h ref_w ref_h).1 ∧
    (load_toregister_resize_dims mov_w mov_h ref_w ref_h).1 ≤ (ref_w : ℤ) ∧
    0 ≤ (load_toregister_resize_dims mov_w mov_h ref_w ref_h).2 ∧
    (load_toregister_resize_dims mov_w mov_h ref_w ref_h).2 ≤ (ref_h : ℤ) := by
  rw [resize_dims_closed mov_w mov_h ref_w ref_h hmw hmh hrh]
  by_cases h : ref_w * mov_h < mov_w * ref_h
  · rw [if_pos h]
    have hle : ref_w * mov_h / mov_w ≤ ref_h :=
      Nat.div_le_of_le_mul (le_of_lt h)
    refine ⟨by positivity, le_refl _, by positivity, ?_⟩
    dsimp only
    exact_mod_cast hle
  · rw [if_neg h]
    have hge : mov_w * ref_h ≤ ref_w * mov_h := Nat.le_of_not_lt h
    have hle : ref_h * mov_w / mov_h ≤ ref_w := by
      refine Nat.div_le_of_le_mul ?_
      rw [Nat.mul_comm ref_h mov_w, Nat.mul_comm mov_h ref_w]
      exact hge
    refine ⟨by positivity, ?_, by positivity, le_refl _⟩
    dsimp only
    exact_mod_cast hle

/-! Control point state machine; butterfly_registrator.py CustomQGraphicsLineItem
lines 74-129 and aux_buttons.py ControlPointUndoButton lines 133-203. -/

/-- State of one control point graphics item together with its attached undo
button: position (scenePos), the recorded travel (travel_start, travel_end),
whether the undo widget has seen a travel, the button's undo/redo mode (is_undo)
and whether the button is enabled. -/
structure ControlPoint where
  pos : ℚ × ℚ
  travel_start : ℚ × ℚ
  travel_end : ℚ × ℚ
  undo_widget_has_seen_travel : Bool
  is_undo : Bool
  enabled : Bool
deriving Repr, DecidableEq

/-- Model of CustomQGraphicsLineItem.tell_undo_widget_travel_was_made, lines
111-117: the undo widget is set to undo mode; on the first travel the widget is
marked as having seen a travel and is enabled. -/
def tell_undo_widget_travel_was_made (cp : ControlPoint) : ControlPoint :=
  { cp with
    is_undo := true,
    enabled := if cp.undo_widget_has_seen_travel then cp.enabled else true,
    undo_widget_has_seen_travel := true }

/-- Model of CustomQGraphicsLineItem.set_position_manually, lines 104-109:
travel_start is recorded from the current position, the point is moved, then
travel_end is recorded from the new position and the undo widget is notified. -/
def set_position_manually (cp : ControlPoint) (x y : ℚ) : ControlPoint :=
  tell_undo_widget_travel_was_made
    { cp with travel_start := cp.pos, pos := (x, y), travel_end := (x, y) }

/-- Model of CustomQGraphicsLineItem.undo_last_travel, lines 119-121. -/
def undo_last_travel (cp : ControlPoint) : ControlPoint :=
  { cp with pos := cp.travel_start }

/-- Model of CustomQGraphicsLineItem.redo_last_travel, lines 123-125. -/
def redo_last_travel (cp : ControlPoint) : ControlPoint :=
  { cp with pos := cp.travel_end }

/-- Model of ControlPointUndoButton.button_clicked, aux_buttons.py lines
153-168: a disabled button does not fire; an enabled button performs undo and
switches to redo mode when in undo mode, and performs redo and switches to undo
mode otherwise. -/
def button_clicked (cp : ControlPoint) : ControlPoint :=
  if cp.enabled = false then cp
  else if cp.is_undo then { undo_last_travel cp with is_undo := false }
  else { redo_last_travel cp with is_undo := true }

/-- Model of RegisterView.set_points, lines 301-310: with other than 4 pairs the
call returns without touching anything; otherwise each of the four control
points is moved via set_position_manually. -/
def set_points (points : List ControlPoint) (pairs : List (ℚ × ℚ)) :
    List ControlPoint :=
  if pairs.length ≠ 4 then points
  else (points.zip pairs).map (fun c => set_position_manually c.1 c.2.1 c.2.2)

/-- Concrete never-moved control point (undo button disabled, as built at
RegisterView construction before the initial placement). -/
def default_point : ControlPoint :=
  ⟨(0, 0), (0, 0), (0, 0), false, true, false⟩

/-! Batch replay; Registrator.save_batch lines 1435-1535 and the dimension gate
of Registrator.read_resize_pad_register lines 1790-1795. -/

/-- A batch file as far as the loop observes it: raw width, raw height, and an
identifier standing for its path. -/
structure BatchFile where
  width : ℕ
  height : ℕ
  path : ℕ
deriving Repr, DecidableEq

/-- One iteration of the save_batch loop, lines 1466-1489: a file whose
read_resize_pad_register call returns an image is appended to the successful
list, a file whose call returns False only sets the mismatch flag. -/
def save_batch_step (orig_w orig_h ref_w ref_h : ℕ)
    (acc : List BatchFile × Bool) (f : BatchFile) : List BatchFile × Bool :=
  match read_resize_pad_register_recipe orig_w orig_h ref_w ref_h f.width f.height with
  | some _ => (acc.1 ++ [f], acc.2)
  | none => (acc.1, true)

/-- The save_batch loop over all selected files, lines 1464-1489, returning
the successful files in order plus the one_or_more_images_mismatch flag. -/
def save_batch (orig_w orig_h ref_w ref_h : ℕ) (files : List BatchFile) :
    List BatchFile × Bool :=
  files.foldl (save_batch_step orig_w orig_h ref_w ref_h) ([], false)

/-- Success predicate of the dimension gate at lines 1794-1795. -/
def batch_success (orig_w orig_h : ℕ) (f : BatchFile) : Bool :=
  decide (f.height = orig_h ∧ f.width = orig_w)

/-! Points persistence; Registrator.save_points lines 1714-1766 and
Registrator.load_points lines 1623-1700. -/

/-- One cell of the pipe-delimited csv: a text cell or a numeric cell. A numeric
cell models a coordinate written by csv.writer at full numeric precision and
read back by float(). -/
inductive Cell where
  | str (s : String)
  | num (q : ℚ)
deriving Repr, DecidableEq

/-- Model of float() applied to a cell (only numeric cells occur where it is
applied in the settled claims). -/
def cell_float (c : Cell) : ℚ :=
  match c with
  | .num q => q
  | .str _ => 0

/-- Version string, butterfly_registrator.py line 50. -/
def app_version : String := "1.0"

/-- Model of Registrator.save_points, lines 1714-1766: after the input checks
(modelled by the length comparison at line 1736; the None checks cannot fire for
the always-present arguments of this model) the header rows and then one row per
zipped point pair are written. -/
def save_points (filename_reference : String) (points_reference : List (ℚ × ℚ))
    (filename_toregister : List String) (points_toregister : List (ℚ × ℚ)) :
    Option (List (List Cell)) :=
  if points_reference.length ≠ points_toregister.length then none
  else some
    ([[Cell.str "Butterfly Registrator"],
      [Cell.str app_version],
      [Cell.str "control points"],
      [Cell.str "Assumes moving image(s) resized and padded to match target image dimensions"],
      [Cell.str "target"],
      [Cell.str filename_reference],
      [Cell.str "moving"],
      filename_toregister.map Cell.str,
      [Cell.str "x", Cell.str "y", Cell.str "x", Cell.str "y"]] ++
     (points_reference.zip points_toregister).map
       (fun pr => [Cell.num pr.1.1, Cell.num pr.1.2, Cell.num pr.2.1, Cell.num pr.2.2]))

/-- Model of csv_list.index(["target"]) at line 1653: index of the first row
equal to the marker row, none when absent (the ValueError branch). -/
def find_target_index : List (List Cell) → Option ℕ
  | [] => none
  | r :: rs =>
    if r = [Cell.str "target"] then some 0
    else (find_target_index rs).map (· + 1)

/-- The invalid-format branch of load_points, lines 1652-1660: true when the
marker row is absent and the warning box is shown. -/
def load_points_invalid_format (csv : List (List Cell)) : Bool :=
  (find_target_index csv).isNone

/-- Model of Registrator.load_points, lines 1640-1700. The two abort parameters
stand for the caller's dialog choices, consulted only when the corresponding
filename check fails (lines 1666-1689). The returned point lists reproduce the
loop at lines 1691-1698, including its nesting: the moving-point append is
inside the branch taken only when the reference side is not skipped. -/
def load_points (csv : List (List Cell))
    (filename_reference filename_toregister : String)
    (abort_reference abort_toregister : Bool) :
    List (ℚ × ℚ) × List (ℚ × ℚ) :=
  match find_target_index csv with
  | none => ([], [])
  | some i =>
    let skip_reference :=
      decide (¬ (csv.getD (i + 1) []).headD (Cell.str "") = Cell.str filename_reference)
        && abort_reference
    let skip_toregister :=
      decide (¬ Cell.str filename_toregister ∈ csv.getD (i + 3) []) && abort_toregister
    let rows := csv.drop (i + 5)
    (if skip_reference then []
     else rows.map (fun r => (cell_float (r.getD 0 (Cell.str "")),
                              cell_float (r.getD 1 (Cell.str "")))),
     if skip_reference then []
     else if skip_toregister then []
     else rows.map (fun r => (cell_float (r.getD 2 (Cell.str "")),
                              cell_float (r.getD 3 (Cell.str "")))))

/-! Homography solve step; Registrator.register_result line 1253 and
Registrator.read_resize_pad_register line 1829 call
cv2.getPerspectiveTransform(points_source, points_destination) with no guard and
no exception handling, and use the returned matrix unconditionally. -/

/-- Modelled from the spec: the solver inside cv2.getPerspectiveTransform is not
part of this repository; per the spec it builds the 8-by-8 linear system mapping
each of the 4 source points exactly onto its corresponding destination point
(the standard projective-correspondence equations, 8 unknowns with the
bottom-right entry fixed at 1) and solves it by LU decomposition. This is the
coefficient matrix of that system. -/
def homography_matrix (src dst : List (ℚ × ℚ)) : List (List ℚ) :=
  (src.zip dst).map
    (fun p => [p.1.1, p.1.2, 1, 0, 0, 0, -p.1.1 * p.2.1, -p.1.2 * p.2.1]) ++
  (src.zip dst).map
    (fun p => [0, 0, 0, p.1.1, p.1.2, 1, -p.1.1 * p.2.2, -p.1.2 * p.2.2])

/-- Find the first row with a nonzero leading entry (the pivot) and return it
with the remaining rows in order. -/
def split_pivot : List (List ℚ) → Option (List ℚ × List (List ℚ))
  | [] => none
  | r :: rs =>
    if r.headD 0 ≠ 0 then some (r, rs)
    else
      match split_pivot rs with
      | none => none
      | some (p, rest) => some (p, r :: rest)

/-- Eliminate the leading column of row r using pivot row p. -/
def eliminate (p r : List ℚ) : List ℚ :=
  (r.tail.zip p.tail).map (fun ab => ab.1 - r.headD 0 / p.headD 0 * ab.2)

/-- LU elimination with pivoting over exact rationals: true when n elimination
steps all find a pivot, i.e. when the matrix is nonsingular. -/
def lu_nonsingular : ℕ → List (List ℚ) → Bool
  | 0, _ => true
  | n + 1, rows =>
    match split_pivot rows with
    | none => false
    | some (p, rest) => lu_nonsingular n (rest.map (eliminate p))

/-- Whether the LU solve underlying the unguarded getPerspectiveTransform call
at lines 1253 and 1829 can succeed on the given correspondence. -/
def getPerspectiveTransform_solvable (src dst : List (ℚ × ℚ)) : Bool :=
  lu_nonsingular 8 (homography_matrix src dst)

/-- The degenerate source quad of the claim: three collinear points plus a
fourth. -/
def degenerate_points_source : List (ℚ × ℚ) := [(0, 0), (10, 0), (20, 0), (5, 5)]

/-- A destination quad in general position (no three collinear). -/
def general_points_destination : List (ℚ × ℚ) :=
  [(0, 0), (100, 0), (0, 100), (100, 100)]

/-! Theorems for claims C2, C3, C7 (resize and pad arithmetic) and C4 (batch). -/

/-- C7 counterexample: at moving 3x2 and target 10x10 the code truncates
int(10 / 1.5) = 6, while the spec's formula round(10 / 1.5) gives 7, so the
claimed rounding behaviour is false on the code. -/
theorem c7_counterexample :
    load_toregister_resize_dims 3 2 10 10 = (10, 6) ∧
    resize_dims_spec 3 2 10 10 = (10, 7) ∧
    load_toregister_resize_dims 3 2 10 10 ≠ resize_dims_spec 3 2 10 10 := by
  refine ⟨?_, ?_, ?_⟩
  · norm_num [load_toregister_resize_dims, image_aspect]
  · norm_num [resize_dims_spec, image_aspect, round_eq]
  · have h1 : load_toregister_resize_dims 3 2 10 10 = (10, 6) := by
      norm_num [load_toregister_resize_dims, image_aspect]
    have h2 : resize_dims_spec 3 2 10 10 = (10, 7) := by
      norm_num [resize_dims_spec, image_aspect, round_eq]
    rw [h1, h2]
    decide

/-- C7 amended: for positive dimensions the resize arithmetic truncates rather
than rounds; when the moving image is wider in aspect than the target
(ref_w * mov_h < mov_w * ref_h) the width is fitted and the height is
int(targetWidth / movingAspect) = targetWidth * mov_h / mov_w in integer
division, otherwise the height is fitted and the width is
int(targetHeight * movingAspect) = targetHeight * mov_w / mov_h. -/
theorem c7_truncated_resize (mov_w mov_h ref_w ref_h : ℕ)
    (hmw : 0 < mov_w) (hmh : 0 < mov_h) (hrw : 0 < ref_w) (hrh : 0 < ref_h) :
    load_toregister_resize_dims mov_w mov_h ref_w ref_h =
      if ref_w * mov_h < mov_w * ref_h then
        ((ref_w : ℤ), ((ref_w * mov_h / mov_w : ℕ) : ℤ))
      else
        (((ref_h * mov_w / mov_h : ℕ) : ℤ), (ref_h : ℤ)) :=
  resize_dims_closed mov_w mov_h ref_w ref_h hmw hmh hrh

/-- Witness for c7_truncated_resize at moving 3x2, target 10x10. -/
theorem c7_truncated_resize_witness :
    load_toregister_resize_dims 3 2 10 10 =
      if 10 * 2 < 3 * 10 then ((10 : ℤ), ((10 * 2 / 3 : ℕ) : ℤ))
      else (((10 * 3 / 2 : ℕ) : ℤ), (10 : ℤ)) :=
  c7_truncated_resize 3 2 10 10 (by norm_num) (by norm_num) (by norm_num) (by norm_num)

/-- C2: for positive dimensions the pad amounts are nonnegative, and padding any
buffer of the resized shape yields a buffer of exactly the target's width and
height, with every pixel below or to the right of the resized region zero;
moreover the example recipe of the claim holds: target 900x900 and moving
400x300 give resize 900x675 with 225 pad rows and 0 pad columns. -/
theorem c2_normalize_exact_canvas (mov_w mov_h ref_w ref_h : ℕ)
    (hmw : 0 < mov_w) (hmh : 0 < mov_h) (hrw : 0 < ref_w) (hrh : 0 < ref_h)
    (r : Recipe) (hr : r = load_toregister_recipe mov_w mov_h ref_w ref_h) :
    (0 ≤ r.add_rows ∧ 0 ≤ r.add_cols) ∧
    (∀ img : CvImage,
      img.width = r.resize_width.toNat →
      img.data.length = r.resize_height.toNat →
      img.wf →
      (np_pad img r.add_rows.toNat r.add_cols.toNat).width = ref_w ∧
      (np_pad img r.add_rows.toNat r.add_cols.toNat).data.length = ref_h ∧
      (np_pad img r.add_rows.toNat r.add_cols.toNat).wf ∧
      ∀ i j : ℕ, (r.resize_height.toNat ≤ i ∨ r.resize_width.toNat ≤ j) →
        ((np_pad img r.add_rows.toNat r.add_cols.toNat).data.getD i []).getD j 0 = 0) ∧
    load_toregister_recipe 400 300 900 900 = ⟨900, 675, 225, 0⟩ := by
  obtain ⟨hw0, hwle, hh0, hhle⟩ := resize_dims_bounds mov_w mov_h ref_w ref_h hmw hmh hrh
  have hrfields : r.resize_width = (load_toregister_resize_dims mov_w mov_h ref_w ref_h).1 ∧
      r.resize_height = (load_toregister_resize_dims mov_w mov_h ref_w ref_h).2 ∧
      r.add_rows = (ref_h : ℤ) - (load_toregister_resize_dims mov_w mov_h ref_w ref_h).2 ∧
      r.add_cols = (ref_w : ℤ) - (load_toregister_resize_dims mov_w mov_h ref_w ref_h).1 := by
    rw [hr]; exact ⟨rfl, rfl, rfl, rfl⟩
  obtain ⟨hfw, hfh, hfr, hfc⟩ := hrfields
  refine ⟨⟨by rw [hfr]; omega, by rw [hfc]; omega⟩, ?_, ?_⟩
  · intro img hiw hih hwf
    have hW : img.width + r.add_cols.toNat = ref_w := by
      rw [hiw, hfw, hfc]; omega
    have hH : img.data.length + r.add_rows.toNat = ref_h := by
      rw [hih, hfh, hfr]; omega
    refine ⟨?_, ?_, ?_, ?_⟩
    · simpa [np_pad] using hW
    · simp only [np_pad, List.length_append, List.length_map, List.length_replicate]
      exact hH
    · intro row hrow
      simp only [np_pad, List.mem_append, List.mem_map, List.mem_replicate] at hrow ⊢
      rcases hrow with ⟨orig, horig, hmap⟩ | ⟨hcnt, hrep⟩
      · rw [← hmap]
        simp [hwf orig horig]
      · rw [hrep]
        simp
    · intro i j hij
      by_cases hi : i < img.data.length
      · have hjge : r.resize_width.toNat ≤ j := by
          rcases hij with hih2 | hjw
          · exfalso; rw [hih] at hi; omega
          · exact hjw
        have hrow : ((np_pad img r.add_rows.toNat r.add_cols.toNat).data.getD i []) =
            img.data.getD i [] ++ List.replicate r.add_cols.toNat 0 := by
          simp only [np_pad]
          rw [list_getD_append_left _ _ _ _ (by simpa using hi),
            list_getD_map_lt _ _ _ _ [] hi]
        rw [hrow]
        have hlen : (img.data.getD i []).length = r.resize_width.toNat := by
          rw [hwf _ (list_getD_mem _ _ _ hi), hiw]
        rw [list_getD_append_right _ _ _ _ (by rw [hlen]; exact hjge),
          list_getD_replicate]
        split <;> rfl
      · have hige : img.data.length ≤ i := Nat.le_of_not_lt hi
        have hrow : ((np_pad img r.add_rows.toNat r.add_cols.toNat).data.getD i []) =
            (List.replicate r.add_rows.toNat
              (List.replicate (img.width + r.add_cols.toNat) 0)).getD
              (i - img.data.length) [] := by
          simp only [np_pad]
          rw [list_getD_append_right _ _ _ _ (by simpa using hige), List.length_map]
        rw [hrow, list_getD_replicate]
        split
        · rw [list_getD_replicate]
          split <;> rfl
        · rfl
  · have h400 : (0:ℕ) < 400 := by norm_num
    rw [load_toregister_recipe]
    rw [resize_dims_closed 400 300 900 900 (by norm_num) (by norm_num) (by norm_num)]
    norm_num

/-- Witness for c2_normalize_exact_canvas at moving 400x300, target 900x900. -/
theorem c2_normalize_exact_canvas_witness :
    load_toregister_recipe 400 300 900 900 = ⟨900, 675, 225, 0⟩ :=
  (c2_normalize_exact_canvas 400 300 900 900 (by norm_num) (by norm_num)
    (by norm_num) (by norm_num) _ rfl).2.2

/-- C3: a batch file whose raw width and height equal those of the original
moving image passes the dimension gate of read_resize_pad_register and its
recomputed resize and pad arithmetic is exactly the recipe of the single-pair
workflow (load_toregister) for the original moving image. -/
theorem c3_batch_recipe_consistent (mov_w mov_h ref_w ref_h file_w file_h : ℕ)
    (hw : file_w = mov_w) (hh : file_h = mov_h) :
    read_resize_pad_register_recipe mov_w mov_h ref_w ref_h file_w file_h =
      some (load_toregister_recipe mov_w mov_h ref_w ref_h) := by
  subst hw
  subst hh
  simp [read_resize_pad_register_recipe, load_toregister_recipe,
    load_toregister_resize_dims]

/-- Witness for c3_batch_recipe_consistent at a 400x300 batch file matching the
400x300 original moving image. -/
theorem c3_batch_recipe_consistent_witness :
    read_resize_pad_register_recipe 400 300 900 900 400 300 =
      some (load_toregister_recipe 400 300 900 900) :=
  c3_batch_recipe_consistent 400 300 900 900 400 300 rfl rfl

theorem save_batch_step_eq (orig_w orig_h ref_w ref_h : ℕ)
    (acc : List BatchFile × Bool) (f : BatchFile) :
    save_batch_step orig_w orig_h ref_w ref_h acc f =
      if batch_success orig_w orig_h f then (acc.1 ++ [f], acc.2)
      else (acc.1, true) := by
  unfold save_batch_step read_resize_pad_register_recipe batch_success
  by_cases h : f.height = orig_h ∧ f.width = orig_w
  · rcases h with ⟨h1, h2⟩
    simp [h1, h2]
  · have hne : f.height ≠ orig_h ∨ f.width ≠ orig_w := by tauto
    simp [hne, h]

theorem save_batch_foldl (orig_w orig_h ref_w ref_h : ℕ) (files : List BatchFile) :
    ∀ (acc : List BatchFile) (flag : Bool),
    files.foldl (save_batch_step orig_w orig_h ref_w ref_h) (acc, flag) =
      (acc ++ files.filter (batch_success orig_w orig_h),
       flag || files.any (fun f => ! batch_success orig_w orig_h f)) := by
  induction files with
  | nil => intro acc flag; simp
  | cons f fs ih =>
    intro acc flag
    rw [List.foldl_cons, save_batch_step_eq]
    by_cases h : batch_success orig_w orig_h f = true
    · rw [if_pos h, ih]
      simp [h, List.filter_cons]
    · rw [if_neg h, ih]
      have hb : batch_success orig_w orig_h f = false := by
        cases hx : batch_success orig_w orig_h f
        · rfl
        · exact absurd hx h
      simp [hb, List.filter_cons]

/-- C4: the batch loop is a per-file map: the successful files are exactly the
files whose raw dimensions match the original moving image (in input order), the
mismatch flag is set iff some file mismatches, so each file's outcome depends
only on that file; and on the claim's 3-file example with file 2 of different
raw width the batch yields the 2 matching successes and the mismatch flag, in
either processing order of the mismatching file. -/
theorem c4_batch_independent (orig_w orig_h ref_w ref_h : ℕ)
    (files : List BatchFile) :
    save_batch orig_w orig_h ref_w ref_h files =
      (files.filter (batch_success orig_w orig_h),
       files.any (fun f => ! batch_success orig_w orig_h f)) ∧
    save_batch 100 80 1000 800 [⟨100, 80, 1⟩, ⟨99, 80, 2⟩, ⟨100, 80, 3⟩] =
      ([⟨100, 80, 1⟩, ⟨100, 80, 3⟩], true) ∧
    save_batch 100 80 1000 800 [⟨99, 80, 2⟩, ⟨100, 80, 1⟩, ⟨100, 80, 3⟩] =
      ([⟨100, 80, 1⟩, ⟨100, 80, 3⟩], true) := by
  refine ⟨?_, ?_, ?_⟩
  · unfold save_batch
    rw [save_batch_foldl]
    simp
  · unfold save_batch
    rw [save_batch_foldl]
    decide
  · unfold save_batch
    rw [save_batch_foldl]
    decide

/-! Theorems for claims C6 and C8 (control point undo/redo state machine). -/

theorem set_position_manually_spec (cp : ControlPoint) (x y : ℚ)
    (hinv : cp.undo_widget_has_seen_travel = true → cp.enabled = true) :
    set_position_manually cp x y = ⟨(x, y), cp.pos, (x, y), true, true, true⟩ := by
  obtain ⟨pos, ts, te, seen, iu, en⟩ := cp
  cases seen with
  | false =>
    simp [set_position_manually, tell_undo_widget_travel_was_made]
  | true =>
    have hen : en = true := hinv rfl
    subst hen
    simp [set_position_manually, tell_undo_widget_travel_was_made]

/-- C6: after a move to (x2, y2), a click of the (now enabled, undo-mode)
button restores the pre-move position and switches the button to redo; the next
click restores the post-move position; and applying undo_last_travel twice
without an intervening move equals applying it once (the second undo is a
no-op, and through the button it is not even reachable since the button is in
redo mode). The hypothesis is the wiring invariant that a widget which has seen
a travel has an enabled button. -/
theorem c6_undo_redo (cp : ControlPoint) (x2 y2 : ℚ)
    (hinv : cp.undo_widget_has_seen_travel = true → cp.enabled = true) :
    (button_clicked (set_position_manually cp x2 y2)).pos = cp.pos ∧
    (button_clicked (set_position_manually cp x2 y2)).is_undo = false ∧
    (button_clicked (button_clicked (set_position_manually cp x2 y2))).pos = (x2, y2) ∧
    undo_last_travel (undo_last_travel (set_position_manually cp x2 y2)) =
      undo_last_travel (set_position_manually cp x2 y2) := by
  rw [set_position_manually_spec cp x2 y2 hinv]
  simp [button_clicked, undo_last_travel, redo_last_travel]

/-- Witness for c6_undo_redo on a concrete never-moved point. -/
theorem c6_undo_redo_witness :
    (button_clicked (set_position_manually default_point 5 7)).pos =
      default_point.pos ∧
    (button_clicked (button_clicked (set_position_manually default_point 5 7))).pos =
      ((5 : ℚ), (7 : ℚ)) :=
  ⟨(c6_undo_redo default_point 5 7 (by decide)).1,
   (c6_undo_redo default_point 5 7 (by decide)).2.2.1⟩

/-- C8 counterexample: a bulk overwrite through set_points does not reset the
per-point history to Default; immediately afterwards the first point's undo
button is enabled and armed for undo, contradicting the claim that undo is
unavailable for every point until a new manual move. -/
theorem c8_counterexample :
    ((set_points [default_point, default_point, default_point, default_point]
        [(1, 1), (2, 2), (3, 3), (4, 4)]).getD 0 default_point).enabled = true ∧
    ((set_points [default_point, default_point, default_point, default_point]
        [(1, 1), (2, 2), (3, 3), (4, 4)]).getD 0 default_point).is_undo = true := by
  constructor <;> rfl

/-- C8 amended: a bulk overwrite of the 4 point pairs through set_points applies
set_position_manually to every point, so the overwrite itself is recorded as a
travel: each point ends with undo armed and enabled and with travel_start equal
to its pre-overwrite position (undo is immediately available and would restore
the pre-load coordinates), rather than having its history reset to Default. -/
theorem c8_set_points_arms_undo (pts : List ControlPoint) (pairs : List (ℚ × ℚ))
    (hpts : pts.length = 4) (hpairs : pairs.length = 4)
    (hinv : ∀ p ∈ pts, p.undo_widget_has_seen_travel = true → p.enabled = true)
    (i : ℕ) (hi : i < 4) :
    (set_points pts pairs).getD i default_point =
      set_position_manually (pts.getD i default_point)
        (pairs.getD i (0, 0)).1 (pairs.getD i (0, 0)).2 ∧
    ((set_points pts pairs).getD i default_point).is_undo = true ∧
    ((set_points pts pairs).getD i default_point).enabled = true ∧
    ((set_points pts pairs).getD i default_point).travel_start =
      (pts.getD i default_point).pos ∧
    ((set_points pts pairs).getD i default_point).pos = pairs.getD i (0, 0) := by
  match pts, hpts with
  | [p0, p1, p2, p3], _ =>
  match pairs, hpairs with
  | [q0, q1, q2, q3], _ =>
  have hset : set_points [p0, p1, p2, p3] [q0, q1, q2, q3] =
      [set_position_manually p0 q0.1 q0.2, set_position_manually p1 q1.1 q1.2,
       set_position_manually p2 q2.1 q2.2, set_position_manually p3 q3.1 q3.2] := by
    simp [set_points]
  have h0 := hinv p0 (by simp)
  have h1 := hinv p1 (by simp)
  have h2 := hinv p2 (by simp)
  have h3 := hinv p3 (by simp)
  interval_cases i <;>
    simp [hset, set_position_manually_spec p0 _ _ h0, set_position_manually_spec p1 _ _ h1,
      set_position_manually_spec p2 _ _ h2, set_position_manually_spec p3 _ _ h3]

/-- Witness for c8_set_points_arms_undo on concrete points. -/
theorem c8_set_points_arms_undo_witness :
    (set_points [default_point, default_point, default_point, default_point]
        [(1, 1), (2, 2), (3, 3), (4, 4)]).getD 0 default_point =
      set_position_manually default_point 1 1 :=
  (c8_set_points_arms_undo
    [default_point, default_point, default_point, default_point]
    [(1, 1), (2, 2), (3, 3), (4, 4)] rfl rfl (by decide) 0 (by decide)).1

/-! Theorems for claims C5, C9, C10 (points persistence). -/

theorem load_rows_fst (a b : List (ℚ × ℚ)) (h : a.length = b.length) :
    ((a.zip b).map
      (fun pr => [Cell.num pr.1.1, Cell.num pr.1.2, Cell.num pr.2.1, Cell.num pr.2.2])).map
      (fun r => (cell_float (r.getD 0 (Cell.str "")),
                 cell_float (r.getD 1 (Cell.str "")))) = a := by
  induction a generalizing b with
  | nil => simp
  | cons x xs ih =>
    cases b with
    | nil => simp at h
    | cons y ys =>
      have h' : xs.length = ys.length := by simpa using h
      simp only [List.zip_cons_cons, List.map_cons]
      rw [ih ys h']
      simp [cell_float]

theorem load_rows_snd (a b : List (ℚ × ℚ)) (h : a.length = b.length) :
    ((a.zip b).map
      (fun pr => [Cell.num pr.1.1, Cell.num pr.1.2, Cell.num pr.2.1, Cell.num pr.2.2])).map
      (fun r => (cell_float (r.getD 2 (Cell.str "")),
                 cell_float (r.getD 3 (Cell.str "")))) = b := by
  induction a generalizing b with
  | nil =>
    cases b with
    | nil => simp
    | cons y ys => simp at h
  | cons x xs ih =>
    cases b with
    | nil => simp at h
    | cons y ys =>
      have h' : xs.length = ys.length := by simpa using h
      simp only [List.zip_cons_cons, List.map_cons]
      rw [ih ys h']
      simp [cell_float]

/-- C5: saving 4 target points and 4 moving points and loading the produced
rows back under matching target and moving filenames returns exactly the
original coordinates, whatever the caller's abort choices are (no mismatch
dialog fires). Coordinates pass through as the exact stored values, not the
2-decimal display rounding. -/
theorem c5_points_roundtrip (filename_reference filename_toregister : String)
    (filenames_toregister : List String)
    (points_reference points_toregister : List (ℚ × ℚ))
    (abort_reference abort_toregister : Bool)
    (h4r : points_reference.length = 4) (h4m : points_toregister.length = 4)
    (hmem : filename_toregister ∈ filenames_toregister) :
    ∃ csv, save_points filename_reference points_reference
        filenames_toregister points_toregister = some csv ∧
      load_points csv filename_reference filename_toregister
        abort_reference abort_toregister =
        (points_reference, points_toregister) := by
  have hlen : ¬ points_reference.length ≠ points_toregister.length := by
    rw [h4r, h4m]
    simp
  refine ⟨_, by rw [save_points, if_neg hlen], ?_⟩
  have hfind : find_target_index
      ([[Cell.str "Butterfly Registrator"],
        [Cell.str app_version],
        [Cell.str "control points"],
        [Cell.str "Assumes moving image(s) resized and padded to match target image dimensions"],
        [Cell.str "target"],
        [Cell.str filename_reference],
        [Cell.str "moving"],
        filenames_toregister.map Cell.str,
        [Cell.str "x", Cell.str "y", Cell.str "x", Cell.str "y"]] ++
       (points_reference.zip points_toregister).map
         (fun pr => [Cell.num pr.1.1, Cell.num pr.1.2, Cell.num pr.2.1, Cell.num pr.2.2])) =
      some 4 := rfl
  have hmem2 : Cell.str filename_toregister ∈ filenames_toregister.map Cell.str :=
    List.mem_map_of_mem _ hmem
  simp only [load_points, hfind]
  simp [hmem2]
  constructor
  · rw [← List.map_map]
    simpa [List.getD_eq_getElem?_getD] using
      load_rows_fst points_reference points_toregister (by rw [h4r, h4m])
  · rw [← List.map_map]
    simpa [List.getD_eq_getElem?_getD] using
      load_rows_snd points_reference points_toregister (by rw [h4r, h4m])

/-- Witness for c5_points_roundtrip on concrete filenames and coordinates. -/
theorem c5_points_roundtrip_witness :
    ∃ csv, save_points "ref.jpg" [(1, 2), (3, 4), (5, 6), (7, 8)] ["mov.jpg"]
        [(10, 20), (30, 40), (50, 60), (70, 80)] = some csv ∧
      load_points csv "ref.jpg" "mov.jpg" false false =
        ([(1, 2), (3, 4), (5, 6), (7, 8)],
         [(10, 20), (30, 40), (50, 60), (70, 80)]) :=
  c5_points_roundtrip "ref.jpg" "mov.jpg" ["mov.jpg"]
    [(1, 2), (3, 4), (5, 6), (7, 8)] [(10, 20), (30, 40), (50, 60), (70, 80)]
    false false rfl rfl (by simp)

/-- C9: evaluating the load of a just-saved file whose stored target filename
does not match the current one ("other.jpg" vs "ref.jpg"), with the caller
aborting only the target side (abort_reference true, abort_toregister false)
while the moving filename matches, returns no points at all: the moving-image
points are dropped too, because the moving-point append at line 1697-1698 is
nested inside the branch taken only when the reference side is not skipped. -/
theorem c9_abort_target_drops_moving :
    load_points
      ((save_points "ref.jpg" [(1, 2), (3, 4), (5, 6), (7, 8)] ["mov.jpg"]
          [(10, 20), (30, 40), (50, 60), (70, 80)]).getD [])
      "other.jpg" "mov.jpg" true false = ([], []) := by
  rfl

/-- C10: when the marker row ["target"] is absent, load_points takes the
invalid-format branch, returns no points, and the subsequent bulk set with an
empty pair list leaves any control-point state unchanged. -/
theorem c10_invalid_format_leaves_points (csv : List (List Cell))
    (filename_reference filename_toregister : String)
    (abort_reference abort_toregister : Bool)
    (h : find_target_index csv = none) :
    load_points_invalid_format csv = true ∧
    load_points csv filename_reference filename_toregister
      abort_reference abort_toregister = ([], []) ∧
    ∀ pts : List ControlPoint, set_points pts ([] : List (ℚ × ℚ)) = pts := by
  refine ⟨?_, ?_, ?_⟩
  · simp [load_points_invalid_format, h]
  · simp [load_points, h]
  · intro pts
    simp [set_points]

/-- Witness for c10_invalid_format_leaves_points on a concrete marker-less
file. -/
theorem c10_invalid_format_leaves_points_witness :
    find_target_index [[Cell.str "Butterfly Registrator"], [Cell.str "1.0"]] = none ∧
    load_points [[Cell.str "Butterfly Registrator"], [Cell.str "1.0"]]
      "ref.jpg" "mov.jpg" true true = ([], []) ∧
    set_points [default_point, default_point, default_point, default_point]
      ([] : List (ℚ × ℚ)) =
      [default_point, default_point, default_point, default_point] :=
  ⟨rfl,
   (c10_invalid_format_leaves_points
     [[Cell.str "Butterfly Registrator"], [Cell.str "1.0"]]
     "ref.jpg" "mov.jpg" true true rfl).2.1,
   (c10_invalid_format_leaves_points
     [[Cell.str "Butterfly Registrator"], [Cell.str "1.0"]]
     "ref.jpg" "mov.jpg" true true rfl).2.2 _⟩

/-! Theorem for claim C1 (degenerate homography configuration). -/

/-- C1: at the claim's degenerate input (source points (0,0), (10,0), (20,0)
collinear, plus the fourth point (5,5)) against a destination quad in general
position, the 8-by-8 linear system that the unguarded
cv2.getPerspectiveTransform call at lines 1253 and 1829 solves by LU
decomposition is singular: elimination runs out of pivots, so the solve cannot
produce a valid homography, while the source has no DegenerateConfiguration
branch and uses the solver's return value unconditionally. -/
theorem c1_degenerate_solve_singular :
    getPerspectiveTransform_solvable degenerate_points_source
      general_points_destination = false := by
  norm_num [getPerspectiveTransform_solvable, degenerate_points_source,
    general_points_destination, homography_matrix, lu_nonsingular, split_pivot,
    eliminate]
